import Mathlib

/-!
Verification of the `react-unity` adapter (`src/source/UnityContent.ts`).

The TypeScript class `UnityContent` is embedded shallowly: the mutable
instance fields become a Lean structure, the static counter and the
`window.ReactUnityWebGL` global become an explicit `GlobalState` record
threaded through the constructor, and every method becomes a pure function
returning its updated state together with a record of the externally
observable calls it makes (callback invocations, `SendMessage` calls,
`SetFullscreen` calls, warnings).  JavaScript callbacks are modelled by
numeric identifiers; an invocation of callback `k` with value `v` is the
pair `(k, v)` in a trace list.  A JavaScript value is modelled by `JSVal`,
with `JSVal.undef` playing the role of `undefined` (an omitted optional
argument in JavaScript is `undefined` inside the callee).
-/

/-- A JavaScript value, to the extent the adapter inspects one: the code
only distinguishes `undefined` (`typeof parameter === "undefined"`) and the
strict boolean `true` (`fullscreen === true`); everything else is passed
through untouched. -/
inductive JSVal where
  | undef : JSVal
  | bool : Bool → JSVal
  | num : Int → JSVal
  | str : String → JSVal
  deriving DecidableEq, Repr

/-- A module map, i.e. the `modules` object of the configuration surface;
an object mapping string keys to string values suffices for the claims. -/
abbrev ModuleMap := List (String × String)

/-- Modelled from the spec: the configuration surface accepted at
construction (spec section 6), `modules?`, `unityVersion?`,
`adjustOnWindowResize?`, `id?`, all optional — the source file
`interfaces/IUnityConfig.ts` is not under `src/`, only its use in
`UnityContent.ts`.  An absent field is `none`. -/
structure IUnityConfig where
  modules : Option ModuleMap
  unityVersion : Option String
  adjustOnWindowResize : Option Bool
  id : Option String
  deriving DecidableEq, Repr

/-- An event binding as stored in `unityEvents`: the object literal
`\x7b eventName, eventCallback \x7d` pushed by `on`.  The callback is a
numeric identifier. -/
structure IUnityEvent where
  eventName : String
  eventCallback : Nat
  deriving DecidableEq, Repr

/-- Modelled from the spec: the runtime instance collaborator (spec
section 6) exposes `SetFullscreen`, `SendMessage` and an *optional*
shutdown operation `Quit`; `hasQuit` records whether `typeof inst.Quit
=== "function"`.  The declaration file is not under `src/`. -/
structure UnityInstance where
  hasQuit : Bool
  deriving DecidableEq, Repr

/-- The process-wide dispatch namespace `window.ReactUnityWebGL`: a
JavaScript object mapping an event name to the callback most recently
registered under that name.  Modelled as an association list in which
`nsSet` overwrites in place. -/
abbrev DispatchNamespace := List (String × Nat)

/-- JavaScript object property write `ns[k] = v`: overwrite the entry for
`k` if one exists, otherwise add one. -/
def nsSet : DispatchNamespace → String → Nat → DispatchNamespace
  | [], k, v => [(k, v)]
  | (k', v') :: rest, k, v =>
    if k' = k then (k, v) :: rest else (k', v') :: nsSet rest k v

/-- JavaScript object property read `ns[k]`: `none` when the key is
absent. -/
def nsGet : DispatchNamespace → String → Option Nat
  | [], _ => none
  | (k', v') :: rest, k => if k' = k then some v' else nsGet rest k

/-- The process-wide mutable state outside any one handle: the static
counter `UnityContent.uniqueID` (initially `0`) and the global
`window.ReactUnityWebGL` (initially absent, i.e. `undefined`). -/
structure GlobalState where
  uniqueID : Nat
  reactUnityWebGL : Option DispatchNamespace
  deriving DecidableEq, Repr

/-- The instance fields of the `UnityContent` class.  The UI component
reference is a non-owning numeric handle. -/
structure UnityContent where
  buildJsonPath : String
  unityLoaderJsPath : String
  unityComponent : Option Nat
  unityInstance : Option UnityInstance
  unityConfig : IUnityConfig
  unityEvents : List IUnityEvent
  uniqueID : Nat
  deriving DecidableEq, Repr

/-- JavaScript `s || d` for an optional string field: `undefined` and the
empty string are falsy, every other string is truthy. -/
def jsOrString (v : Option String) (d : String) : String :=
  match v with
  | none => d
  | some s => if s = "" then d else s

/-- JavaScript `m || d` for an optional object field: only `undefined`
(and `null`) are falsy; an object, even empty, is truthy. -/
def jsOrModules (v : Option ModuleMap) (d : ModuleMap) : ModuleMap :=
  match v with
  | none => d
  | some m => m

/-- The `UnityContent` constructor: `unityConfig || \x7b\x7d`, store the
paths, `this.uniqueID = ++UnityContent.uniqueID`, empty event list, merge
the configuration over the defaults, and create `window.ReactUnityWebGL`
if it is still `undefined`. -/
def UnityContent.construct (g : GlobalState) (buildJsonPath unityLoaderJsPath : String)
    (unityConfig : Option IUnityConfig) : UnityContent × GlobalState :=
  let _unityConfig := unityConfig.getD ⟨none, none, none, none⟩
  let newID := g.uniqueID + 1
  let c : UnityContent :=
    { buildJsonPath := buildJsonPath
      unityLoaderJsPath := unityLoaderJsPath
      unityComponent := none
      unityInstance := none
      uniqueID := newID
      unityEvents := []
      unityConfig :=
        { modules := some (jsOrModules _unityConfig.modules [])
          unityVersion := some (jsOrString _unityConfig.unityVersion "undefined")
          adjustOnWindowResize := _unityConfig.adjustOnWindowResize
          id := some (jsOrString _unityConfig.id "nill") } }
  let ns : Option DispatchNamespace :=
    match g.reactUnityWebGL with
    | none => some []
    | some ns => some ns
  (c, { uniqueID := newID, reactUnityWebGL := ns })

/-- `setComponentInstance`: store the component reference. -/
def UnityContent.setComponentInstance (c : UnityContent) (comp : Nat) : UnityContent :=
  { c with unityComponent := some comp }

/-- `setUnityInstance`: store the runtime instance reference. -/
def UnityContent.setUnityInstance (c : UnityContent) (inst : UnityInstance) : UnityContent :=
  { c with unityInstance := some inst }

/-- `setFullscreen`: if an instance is attached, call
`SetFullscreen(fullscreen === true ? 1 : 0)`; the result is the argument
of that single call, `none` when no call is made. -/
def UnityContent.setFullscreen (c : UnityContent) (fullscreen : JSVal) : Option Nat :=
  match c.unityInstance with
  | some _ => some (if fullscreen = JSVal.bool true then 1 else 0)
  | none => none

/-- The externally observable synchronous effect of `remove()`: how many
warnings `loggingService.warnUnityContentRemoveNotAvailable()` produced
and how many times `unityInstance.Quit` was invoked. -/
structure RemoveEffect where
  warnings : Nat
  quitCalls : Nat
  deriving DecidableEq, Repr

/-- The body of `triggerUnityEvent`'s loop: walk `unityEvents` from the
front; each binding whose `eventName` matches contributes one callback
invocation `(eventCallback, eventValue)` to the trace, in list order. -/
def triggerLoop (eventName : String) (eventValue : JSVal) :
    List IUnityEvent → List (Nat × JSVal)
  | [] => []
  | e :: rest =>
    if e.eventName = eventName then
      (e.eventCallback, eventValue) :: triggerLoop eventName eventValue rest
    else triggerLoop eventName eventValue rest

/-- `triggerUnityEvent(eventName, eventValue?)`: the `for` loop over
`this.unityEvents`.  The result is the trace of callback invocations; an
omitted `eventValue` is `JSVal.undef`. -/
def UnityContent.triggerUnityEvent (c : UnityContent) (eventName : String)
    (eventValue : JSVal) : List (Nat × JSVal) :=
  triggerLoop eventName eventValue c.unityEvents

/-- `remove()`: when an instance is attached and `Quit` is a function,
invoke `Quit` once with a completion callback (`quitCompletionCallback`
below) and change nothing synchronously; otherwise warn once and change
nothing. -/
def UnityContent.remove (c : UnityContent) : UnityContent × RemoveEffect :=
  match c.unityInstance with
  | some inst =>
    if inst.hasQuit then (c, ⟨0, 1⟩)
    else (c, ⟨1, 0⟩)
  | none => (c, ⟨1, 0⟩)

/-- The completion callback `remove()` passes to `Quit`: trigger a
`"quitted"` event (no value, hence `JSVal.undef`) and clear the instance
reference.  Returns the dispatch trace and the updated handle. -/
def UnityContent.quitCompletionCallback (c : UnityContent) :
    List (Nat × JSVal) × UnityContent :=
  (c.triggerUnityEvent "quitted" JSVal.undef, { c with unityInstance := none })

/-- A call made to the runtime instance's `SendMessage`: either the
two-argument form or the three-argument form. -/
inductive SendCall where
  | sendMessage2 : String → String → SendCall
  | sendMessage3 : String → String → JSVal → SendCall
  deriving DecidableEq, Repr

/-- `send(gameObjectName, methodName, parameter?)`: no-op without an
instance; with one, the two-argument `SendMessage` when
`typeof parameter === "undefined"`, else the three-argument form.  The
result is the single call made, `none` when none is. -/
def UnityContent.send (c : UnityContent) (gameObjectName methodName : String)
    (parameter : JSVal) : Option SendCall :=
  match c.unityInstance with
  | some _ =>
    if parameter = JSVal.undef then
      some (SendCall.sendMessage2 gameObjectName methodName)
    else
      some (SendCall.sendMessage3 gameObjectName methodName parameter)
  | none => none

/-- The two-argument caller form `send(gameObjectName, methodName)`: in
JavaScript the omitted optional `parameter` is `undefined` inside the
method body. -/
def UnityContent.sendNoParameter (c : UnityContent)
    (gameObjectName methodName : String) : Option SendCall :=
  c.send gameObjectName methodName JSVal.undef

/-- `on(eventName, eventCallback)`: push the binding onto `unityEvents`
and write the callback into `window.ReactUnityWebGL[eventName]`
(the stored wrapper `(parameter) => eventCallback(parameter)` is
extensionally the callback itself, so the identifier is stored). -/
def UnityContent.on (c : UnityContent) (ns : DispatchNamespace)
    (eventName : String) (eventCallback : Nat) : UnityContent × DispatchNamespace :=
  ({ c with unityEvents := c.unityEvents ++ [⟨eventName, eventCallback⟩] },
   nsSet ns eventName eventCallback)

/-- The ids produced by a sequence of constructions threading the global
state: each request is `(buildJsonPath, unityLoaderJsPath, config?)`. -/
def constructIds (g : GlobalState) :
    List (String × String × Option IUnityConfig) → List Nat
  | [] => []
  | (b, u, cfg) :: rest =>
    (UnityContent.construct g b u cfg).1.uniqueID ::
      constructIds (UnityContent.construct g b u cfg).2 rest

/-- A concrete freshly constructed handle, used by witnesses. -/
def sampleContent : UnityContent :=
  (UnityContent.construct ⟨0, none⟩ "Build/build.json" "Build/UnityLoader.js" none).1

/-- The dispatch loop distributes over list append: later bindings fire
after earlier ones. -/
theorem triggerLoop_append (n : String) (v : JSVal) (l₁ l₂ : List IUnityEvent) :
    triggerLoop n v (l₁ ++ l₂) = triggerLoop n v l₁ ++ triggerLoop n v l₂ := by
  induction l₁ with
  | nil => rfl
  | cons e rest ih =>
    by_cases h : e.eventName = n <;> simp [triggerLoop, h, ih]

/-- The dispatch loop is the front-to-back filter of the binding list,
each match invoked once with the given value. -/
theorem triggerLoop_eq_filter (n : String) (v : JSVal) (l : List IUnityEvent) :
    triggerLoop n v l
      = (l.filter fun e => e.eventName == n).map fun e => (e.eventCallback, v) := by
  induction l with
  | nil => rfl
  | cons e rest ih =>
    by_cases h : e.eventName = n <;> simp [triggerLoop, List.filter_cons, h, ih]

/-- Reading back the key just written returns the new value. -/
theorem nsGet_nsSet_same (ns : DispatchNamespace) (k : String) (v : Nat) :
    nsGet (nsSet ns k v) k = some v := by
  induction ns with
  | nil => simp [nsSet, nsGet]
  | cons p rest ih =>
    by_cases h : p.1 = k <;> simp [nsSet, nsGet, h, ih]

/-- Writing one key leaves every other key's value unchanged. -/
theorem nsGet_nsSet_other (ns : DispatchNamespace) (k k' : String) (v : Nat)
    (h : k' ≠ k) : nsGet (nsSet ns k v) k' = nsGet ns k' := by
  induction ns with
  | nil => simp [nsSet, nsGet, Ne.symm h]
  | cons p rest ih =>
    by_cases hp : p.1 = k
    · simp [nsSet, nsGet, hp, Ne.symm h]
    · simp [nsSet, nsGet, hp, ih]

/-- The id handed to the newly constructed handle is the incremented
counter. -/
theorem construct_fst_uniqueID (g : GlobalState) (b u : String)
    (cfg : Option IUnityConfig) :
    (UnityContent.construct g b u cfg).1.uniqueID = g.uniqueID + 1 := rfl

/-- The global counter after a construction is the incremented counter. -/
theorem construct_snd_uniqueID (g : GlobalState) (b u : String)
    (cfg : Option IUnityConfig) :
    (UnityContent.construct g b u cfg).2.uniqueID = g.uniqueID + 1 := rfl

/-- Every id produced by a run of constructions exceeds the counter the
run started from. -/
theorem constructIds_mem_gt (reqs : List (String × String × Option IUnityConfig)) :
    ∀ (g : GlobalState), ∀ x ∈ constructIds g reqs, g.uniqueID < x := by
  induction reqs with
  | nil => intro g x hx; simp [constructIds] at hx
  | cons r rest ih =>
    intro g x hx
    obtain ⟨b, u, cfg⟩ := r
    simp only [constructIds, List.mem_cons] at hx
    rcases hx with h | h
    · rw [h, construct_fst_uniqueID]; omega
    · have := ih _ x h
      rw [construct_snd_uniqueID] at this
      omega

/-- Claim C1: after registering `on("loaded", cb1)` and then
`on("loaded", cb2)`, dispatching `"loaded"` with value 42 invokes `cb1`
with 42 and then `cb2` with 42, in that order, after whatever earlier
`"loaded"` bindings the handle already held; in general `triggerUnityEvent`
scans the binding list front-to-back, fires every binding whose name
matches, and never exits early (the trace is exactly the filtered list). -/
theorem C1_dispatch_fanout_in_order (c : UnityContent) (ns : DispatchNamespace)
    (cb1 cb2 : Nat) :
    (((c.on ns "loaded" cb1).1.on (c.on ns "loaded" cb1).2 "loaded" cb2).1.triggerUnityEvent
        "loaded" (JSVal.num 42)
      = c.triggerUnityEvent "loaded" (JSVal.num 42)
          ++ [(cb1, JSVal.num 42), (cb2, JSVal.num 42)])
    ∧ ∀ (d : UnityContent) (n : String) (v : JSVal),
        d.triggerUnityEvent n v
          = (d.unityEvents.filter fun e => e.eventName == n).map
              fun e => (e.eventCallback, v) := by
  refine ⟨?_, fun d n v => triggerLoop_eq_filter n v d.unityEvents⟩
  simp [UnityContent.on, UnityContent.triggerUnityEvent, triggerLoop_append, triggerLoop]

/-- Claim C2: across any sequence of constructions threading the
process-wide state, the assigned ids strictly increase, hence are unique
and never reused for the process lifetime. -/
theorem C2_ids_strictly_increasing (g : GlobalState)
    (reqs : List (String × String × Option IUnityConfig)) :
    List.Pairwise (· < ·) (constructIds g reqs) ∧ (constructIds g reqs).Nodup := by
  have hp : ∀ g' : GlobalState, List.Pairwise (· < ·) (constructIds g' reqs) := by
    induction reqs with
    | nil => intro g'; simp [constructIds]
    | cons r rest ih =>
      intro g'
      obtain ⟨b, u, cfg⟩ := r
      simp only [constructIds]
      refine List.pairwise_cons.mpr ⟨?_, ih _⟩
      intro x hx
      have hgt := constructIds_mem_gt rest _ x hx
      rw [construct_snd_uniqueID] at hgt
      rw [construct_fst_uniqueID]
      omega
  exact ⟨hp g, (hp g).imp fun h => Nat.ne_of_lt h⟩

/-- Claim C3: constructing with a configuration supplying only
`unityVersion = "2020.1"` merges to `modules = \x7b\x7d`, `id = "nill"`,
`unityVersion = "2020.1"`, `adjustOnWindowResize` absent; and in general a
missing `modules` becomes the empty mapping, a missing `unityVersion`
becomes `"undefined"`, a missing `id` becomes `"nill"`, and
`adjustOnWindowResize` is passed through as-is. -/
theorem C3_config_defaults (g : GlobalState) (b u : String) :
    ((UnityContent.construct g b u (some ⟨none, some "2020.1", none, none⟩)).1.unityConfig
      = ⟨some [], some "2020.1", none, some "nill"⟩)
    ∧ (∀ (uv : Option String) (ab : Option Bool) (idv : Option String),
        (UnityContent.construct g b u (some ⟨none, uv, ab, idv⟩)).1.unityConfig.modules
          = some [])
    ∧ (∀ (mv : Option ModuleMap) (ab : Option Bool) (idv : Option String),
        (UnityContent.construct g b u (some ⟨mv, none, ab, idv⟩)).1.unityConfig.unityVersion
          = some "undefined")
    ∧ (∀ (mv : Option ModuleMap) (uv : Option String) (ab : Option Bool),
        (UnityContent.construct g b u (some ⟨mv, uv, ab, none⟩)).1.unityConfig.id
          = some "nill")
    ∧ (∀ cfg : IUnityConfig,
        (UnityContent.construct g b u (some cfg)).1.unityConfig.adjustOnWindowResize
          = cfg.adjustOnWindowResize) := by
  refine ⟨?_, fun uv ab idv => rfl, fun mv ab idv => rfl, fun mv uv ab => rfl,
    fun cfg => rfl⟩
  simp [UnityContent.construct, jsOrModules, jsOrString]

/-- Claim C4: `on(eventName, callback)` appends the binding to the end of
the handle's list, writes the callback into the process-wide dispatch
namespace under that name overwriting any previous entry (last
registration wins for namespace lookups, other keys untouched), while
list-based dispatch still fans out to all earlier same-name bindings
followed by the new one. -/
theorem C4_on_appends_and_overwrites (c : UnityContent) (ns : DispatchNamespace)
    (n : String) (cb : Nat) :
    ((c.on ns n cb).1.unityEvents = c.unityEvents ++ [⟨n, cb⟩])
    ∧ (nsGet (c.on ns n cb).2 n = some cb)
    ∧ (∀ k, k ≠ n → nsGet (c.on ns n cb).2 k = nsGet ns k)
    ∧ (∀ v, (c.on ns n cb).1.triggerUnityEvent n v
        = c.triggerUnityEvent n v ++ [(cb, v)]) := by
  refine ⟨rfl, nsGet_nsSet_same ns n cb, fun k hk => nsGet_nsSet_other ns n k cb hk, ?_⟩
  intro v
  simp [UnityContent.on, UnityContent.triggerUnityEvent, triggerLoop_append, triggerLoop]

/-- Claim C4 witness: a concrete handle and namespace where the unrelated
key `"other"` is untouched by registering `"loaded"`. -/
theorem C4_on_appends_and_overwrites_witness :
    (("other" : String) ≠ "loaded")
    ∧ nsGet (sampleContent.on [("other", 7), ("loaded", 3)] "loaded" 5).2 "other"
        = nsGet [("other", 7), ("loaded", 3)] "other" :=
  ⟨by decide,
    (C4_on_appends_and_overwrites sampleContent [("other", 7), ("loaded", 3)]
      "loaded" 5).2.2.1 "other" (by decide)⟩

/-- Claim C5: `remove()` on a handle whose attached instance exposes
`Quit` invokes `Quit` exactly once with no warning and no synchronous
state change; the completion callback then dispatches exactly one
`"quitted"` event through the binding list with no value (each matching
binding fires once with `undefined`) and clears the instance reference,
leaving the rest of the handle intact. -/
theorem C5_remove_quit_completion (c : UnityContent) :
    (({c with unityInstance := some ⟨true⟩} : UnityContent).remove
      = ({c with unityInstance := some ⟨true⟩}, ⟨0, 1⟩))
    ∧ (({c with unityInstance := some ⟨true⟩} : UnityContent).quitCompletionCallback.2
        = {c with unityInstance := none})
    ∧ (({c with unityInstance := some ⟨true⟩} : UnityContent).quitCompletionCallback.1
        = (c.unityEvents.filter fun e => e.eventName == "quitted").map
            fun e => (e.eventCallback, JSVal.undef)) := by
  refine ⟨rfl, rfl, ?_⟩
  exact triggerLoop_eq_filter "quitted" JSVal.undef c.unityEvents

/-- Claim C6: `remove()` with no instance attached, or with an instance
lacking a `Quit` function, warns exactly once, invokes `Quit` zero times
(so no `"quitted"` dispatch ever fires), and leaves the handle's state
unchanged; no exception is modelled because the code has no throwing
path. -/
theorem C6_remove_unavailable_warns (c : UnityContent) :
    (({c with unityInstance := none} : UnityContent).remove
      = ({c with unityInstance := none}, ⟨1, 0⟩))
    ∧ (({c with unityInstance := some ⟨false⟩} : UnityContent).remove
      = ({c with unityInstance := some ⟨false⟩}, ⟨1, 0⟩)) :=
  ⟨rfl, rfl⟩

/-- Claim C7: `send` is a pure no-op (no call, and being effect-free, no
state or namespace mutation) when no instance is attached; with an
instance it makes exactly one `SendMessage` call addressed to the object
and method, three-argument when a non-`undefined` parameter was supplied
and two-argument otherwise. -/
theorem C7_send_guarded (c : UnityContent) (g m : String) (p : JSVal) :
    (({c with unityInstance := none} : UnityContent).send g m p = none)
    ∧ (∀ inst : UnityInstance, p ≠ JSVal.undef →
        ({c with unityInstance := some inst} : UnityContent).send g m p
          = some (SendCall.sendMessage3 g m p))
    ∧ (∀ inst : UnityInstance,
        ({c with unityInstance := some inst} : UnityContent).send g m JSVal.undef
          = some (SendCall.sendMessage2 g m)) := by
  refine ⟨rfl, fun inst hp => ?_, fun inst => rfl⟩
  simp [UnityContent.send, hp]

/-- Claim C7 witness: a bound handle forwarding a concrete non-undefined
parameter in the three-argument form. -/
theorem C7_send_guarded_witness :
    (JSVal.num 9 ≠ JSVal.undef)
    ∧ ({sampleContent with unityInstance := some ⟨true⟩} : UnityContent).send
        "Cube" "Jump" (JSVal.num 9)
        = some (SendCall.sendMessage3 "Cube" "Jump" (JSVal.num 9)) :=
  ⟨by decide,
    (C7_send_guarded sampleContent "Cube" "Jump" (JSVal.num 9)).2.1 ⟨true⟩ (by decide)⟩

/-- Claim C8: dispatching an event name for which no binding exists
invokes no callback (empty trace) and, `triggerUnityEvent` being
effect-free, raises nothing and leaves the binding list unchanged. -/
theorem C8_dispatch_no_match (c : UnityContent) (n : String) (v : JSVal)
    (h : ∀ e ∈ c.unityEvents, e.eventName ≠ n) :
    c.triggerUnityEvent n v = [] := by
  rw [UnityContent.triggerUnityEvent, triggerLoop_eq_filter]
  have hf : c.unityEvents.filter (fun e => e.eventName == n) = [] := by
    rw [List.filter_eq_nil_iff]
    intro e he
    simpa using h e he
  rw [hf]
  rfl

/-- Claim C8 witness: a handle with two bindings, neither named
`"missing"`, dispatches `"missing"` to an empty trace. -/
theorem C8_dispatch_no_match_witness :
    (∀ e ∈ ({sampleContent with
        unityEvents := [⟨"loaded", 1⟩, ⟨"progress", 2⟩]} : UnityContent).unityEvents,
      e.eventName ≠ "missing")
    ∧ ({sampleContent with
        unityEvents := [⟨"loaded", 1⟩, ⟨"progress", 2⟩]} : UnityContent).triggerUnityEvent
        "missing" JSVal.undef = [] :=
  ⟨by decide,
    C8_dispatch_no_match
      {sampleContent with unityEvents := [⟨"loaded", 1⟩, ⟨"progress", 2⟩]}
      "missing" JSVal.undef (by decide)⟩

/-- Claim C9: `setFullscreen` makes no call when no instance is attached;
with an instance it makes exactly one `SetFullscreen` call, with argument
1 exactly when the argument is the strict boolean `true` and 0 for every
other value, truthy non-booleans included. -/
theorem C9_setFullscreen_strict_true (c : UnityContent) (v : JSVal) :
    (({c with unityInstance := none} : UnityContent).setFullscreen v = none)
    ∧ (∀ inst : UnityInstance,
        ({c with unityInstance := some inst} : UnityContent).setFullscreen
          (JSVal.bool true) = some 1)
    ∧ (∀ inst : UnityInstance, v ≠ JSVal.bool true →
        ({c with unityInstance := some inst} : UnityContent).setFullscreen v
          = some 0) := by
  refine ⟨rfl, fun inst => rfl, fun inst hv => ?_⟩
  simp [UnityContent.setFullscreen, hv]

/-- Claim C9 witness: the truthy non-boolean `1` still maps to the
argument 0 on a bound handle. -/
theorem C9_setFullscreen_strict_true_witness :
    (JSVal.num 1 ≠ JSVal.bool true)
    ∧ ({sampleContent with unityInstance := some ⟨true⟩} : UnityContent).setFullscreen
        (JSVal.num 1) = some 0 :=
  ⟨by decide,
    (C9_setFullscreen_strict_true sampleContent (JSVal.num 1)).2.2 ⟨true⟩ (by decide)⟩

/-- Claim C10: with an instance attached, `send` with an explicitly
supplied `undefined` parameter produces exactly the call the
parameterless caller form produces, namely the two-argument
`SendMessage`; the runtime cannot distinguish explicit `undefined` from
an omitted parameter. -/
theorem C10_send_undef_eq_omitted (c : UnityContent) (g m : String)
    (inst : UnityInstance) :
    (({c with unityInstance := some inst} : UnityContent).send g m JSVal.undef
      = ({c with unityInstance := some inst} : UnityContent).sendNoParameter g m)
    ∧ (({c with unityInstance := some inst} : UnityContent).send g m JSVal.undef
      = some (SendCall.sendMessage2 g m)) :=
  ⟨rfl, rfl⟩
